import Mathlib

/-!
Verification of the data-synchronization pipeline of this repository.

The development shallowly embeds the Python sources:
  - utilities.py    : format_datetime, extract_primary_from_array,
                      flatten_address_object, flatten_donor_data, cast_to_schema,
                      load_to_bigquery (row loop and donor mutation), fetch_data,
                      process_client / process_all_clients
  - main-v2.py      : process_endpoint (field extraction, null defaulting,
                      insert classification)
  - utilities-v2.py : process_endpoint (field extraction, type coercion with
                      parse-failure defaults, insert classification)
JSON-derived Python values are modelled by the inductive type PyVal; Python
dicts are association lists keyed by strings (JSON object keys are strings);
raising code is modelled with Except.
-/

/-- Model of a Python datetime value as produced by datetime.fromisoformat:
calendar fields, microsecond, and an optional UTC offset in minutes. -/
structure PyDatetime where
  year : Nat
  month : Nat
  day : Nat
  hour : Nat
  minute : Nat
  second : Nat
  microsecond : Nat
  offsetMinutes : Option Int
deriving DecidableEq

/-- Model of the Python values flowing through the pipeline: JSON scalars,
arrays and objects, plus the datetime values produced by timestamp coercion. -/
inductive PyVal where
  | none
  | bool (b : Bool)
  | int (n : Int)
  | float (q : Rat)
  | str (s : String)
  | list (xs : List PyVal)
  | dict (fields : List (String × PyVal))
  | datetime (d : PyDatetime)

/-- A Python dict with string keys, as built by the row-construction code. -/
abbrev PyRow := List (String × PyVal)

/-- First-match lookup in an association list; models reading a dict key. -/
def rowLookup : PyRow → String → Option PyVal
  | [], _ => Option.none
  | (k, v) :: rest, key => if k = key then some v else rowLookup rest key

/-- Models a Python dict assignment d[k] = v: the first binding of k is
overwritten in place, otherwise the pair is appended, as dict insertion
order semantics dictate. -/
def setKey : PyRow → String → PyVal → PyRow
  | [], k, v => [(k, v)]
  | p :: rest, k, v => if p.1 = k then (k, v) :: rest else p :: setKey rest k v

/-- The keys of a row, in order. -/
def keysOf (r : PyRow) : List String := r.map Prod.fst

/-- Models d.get(k) on a dict (absent key gives Python None).  On a non-dict
value the model yields None; the sources only call .get on dict-shaped
JSON values. -/
def PyVal.get : PyVal → String → PyVal
  | .dict fs, k =>
      match rowLookup fs k with
      | some v => v
      | _ => PyVal.none
  | _, _ => PyVal.none

/-- Models d.get(k, default). -/
def PyVal.getD : PyVal → String → PyVal → PyVal
  | .dict fs, k, d =>
      match rowLookup fs k with
      | some v => v
      | _ => d
  | _, _, d => d

/-- Models the Python membership test k in d for a dict d. -/
def PyVal.hasKey : PyVal → String → Bool
  | .dict fs, k => (rowLookup fs k).isSome
  | _, _ => false

/-- Models the Python test value is None. -/
def PyVal.isNone : PyVal → Bool
  | .none => true
  | _ => false

/-- Models Python truthiness of a value, as used in conditions such as
if not array and if rel_data. -/
def PyVal.truthy : PyVal → Bool
  | .none => false
  | .bool b => b
  | .int n => decide (n ≠ 0)
  | .float q => decide (q ≠ 0)
  | .str s => decide (s ≠ "")
  | .list xs => !xs.isEmpty
  | .dict fs => !fs.isEmpty
  | .datetime _ => true

/-- Models str(value) for the value shapes the claims exercise (None, bool,
int, str).  Python renders floats, lists, dicts and datetimes differently
from the placeholder forms used here; no claim evaluates str on those. -/
def pyStr : PyVal → String
  | .none => "None"
  | .bool true => "True"
  | .bool false => "False"
  | .int n => toString n
  | .float q => toString q
  | .str s => s
  | .list _ => "<list>"
  | .dict _ => "<dict>"
  | .datetime _ => "<datetime>"

/-- Models a guarded dict subscript r[k] where the key is known present;
the default None branch is unreachable at the call sites in the model. -/
def rowGetD (r : PyRow) (k : String) : PyVal :=
  match rowLookup r k with
  | some v => v
  | _ => PyVal.none

/-! ### Models of the Python numeric and ISO-8601 parses -/

/-- Decimal digit value of a character, if it is a digit. -/
def digitVal (c : Char) : Option Nat :=
  if c.isDigit then some (c.toNat - 48) else Option.none

/-- Splits a leading run of decimal digits from a character list. -/
def takeDigits : List Char → (List Nat × List Char)
  | [] => ([], [])
  | c :: rest =>
      match digitVal c with
      | some d =>
          let p := takeDigits rest
          (d :: p.1, p.2)
      | _ => ([], c :: rest)

/-- The number denoted by a list of decimal digit values. -/
def natOfDigits (ds : List Nat) : Nat := ds.foldl (fun a d => a * 10 + d) 0

/-- Consumes an optional leading sign; returns whether it was a minus. -/
def parseSign : List Char → (Bool × List Char)
  | '-' :: r => (true, r)
  | '+' :: r => (false, r)
  | l => (false, l)

/-- Strips leading and trailing spaces, as the Python numeric constructors do. -/
def stripSpaces (l : List Char) : List Char :=
  ((l.dropWhile (fun c => c = ' ')).reverse.dropWhile (fun c => c = ' ')).reverse

/-- Model of the Python int(s) parse on a string: optional surrounding
spaces, optional sign, then decimal digits only.  Digit-group underscores
and non-decimal bases are not modelled; no claim exercises them. -/
def intOfChars (l : List Char) : Option Int :=
  let l1 := stripSpaces l
  let sg := parseSign l1
  let p := takeDigits sg.2
  if p.1.isEmpty || !p.2.isEmpty then Option.none
  else some (if sg.1 then -(natOfDigits p.1 : Int) else (natOfDigits p.1 : Int))

/-- Applies an optional trailing exponent part to a parsed mantissa, as in
the Python float(s) grammar; anything left over makes the parse fail. -/
def applyExp (q : Rat) : List Char → Option Rat
  | [] => some q
  | c :: r =>
      if c = 'e' ∨ c = 'E' then
        let sg := parseSign r
        let p := takeDigits sg.2
        if p.1.isEmpty || !p.2.isEmpty then Option.none
        else some (q * (10 : Rat) ^ (if sg.1 then -(natOfDigits p.1 : Int) else (natOfDigits p.1 : Int)))
      else Option.none

/-- Model of the Python float(s) parse on a string: optional surrounding
spaces, optional sign, digits with an optional fractional part, optional
exponent.  The inf and nan spellings are not modelled; no claim uses them.
The value is represented exactly as a rational. -/
def floatOfChars (l : List Char) : Option Rat :=
  let l1 := stripSpaces l
  let sg := parseSign l1
  let ip := takeDigits sg.2
  match ip.2 with
  | '.' :: r =>
      let fp := takeDigits r
      if ip.1.isEmpty && fp.1.isEmpty then Option.none
      else
        let m : Rat :=
          (natOfDigits ip.1 : Rat) + (natOfDigits fp.1 : Rat) / ((10 : Rat) ^ fp.1.length)
        applyExp (if sg.1 then -m else m) fp.2
  | rest =>
      if ip.1.isEmpty then Option.none
      else applyExp (if sg.1 then -(natOfDigits ip.1 : Rat) else (natOfDigits ip.1 : Rat)) rest

/-- Model of float(value) applied to a Python value: numbers convert,
strings parse, everything else raises TypeError (parse failure here). -/
def pyFloat : PyVal → Option Rat
  | PyVal.int n => some (n : Rat)
  | PyVal.float q => some q
  | PyVal.bool b => some (if b then 1 else 0)
  | PyVal.str s => floatOfChars s.toList
  | _ => Option.none

/-- Model of int(value) applied to a Python value: ints pass through,
floats truncate toward zero, strings parse, everything else raises
TypeError (parse failure here). -/
def pyInt : PyVal → Option Int
  | PyVal.int n => some n
  | PyVal.float q => some (Int.tdiv q.num (q.den : Int))
  | PyVal.bool b => some (if b then 1 else 0)
  | PyVal.str s => intOfChars s.toList
  | _ => Option.none

/-- Model of the Python replace of every Z by +00:00, as performed on
timestamp text before parsing in utilities-v2.py line 54. -/
def replaceZ : List Char → List Char
  | [] => []
  | c :: r =>
      if c = 'Z' then '+' :: '0' :: '0' :: ':' :: '0' :: '0' :: replaceZ r
      else c :: replaceZ r

/-- Reads exactly n decimal digits from the front of a character list. -/
def parseExactDigits (n : Nat) (l : List Char) : Option (Nat × List Char) :=
  let pre := l.take n
  if pre.length = n ∧ pre.all Char.isDigit then
    some (natOfDigits (pre.map (fun c => c.toNat - 48)), l.drop n)
  else Option.none

/-- Consumes one expected character. -/
def expectChar (c : Char) : List Char → Option (List Char)
  | x :: r => if x = c then some r else Option.none
  | [] => Option.none

/-- Parses an optional trailing UTC offset of the form +HH:MM or -HH:MM
into minutes; an empty remainder means a naive datetime. -/
def parseOffset : List Char → Option (Option Int)
  | [] => some Option.none
  | c :: r =>
      if c = '+' ∨ c = '-' then
        match parseExactDigits 2 r with
        | some (hh, r1) =>
            match expectChar ':' r1 with
            | some r2 =>
                match parseExactDigits 2 r2 with
                | some (mm, r3) =>
                    if hh ≤ 23 ∧ mm ≤ 59 ∧ r3.isEmpty then
                      some (some ((if c = '-' then (-1 : Int) else 1) * ((hh * 60 + mm : Nat) : Int)))
                    else Option.none
                | _ => Option.none
            | _ => Option.none
        | _ => Option.none
      else Option.none

/-- Parses an optional fractional-second part .d{1..6} into microseconds,
returning the microsecond count and the remainder. -/
def parseFrac : List Char → Option (Nat × List Char)
  | '.' :: r =>
      let p := takeDigits r
      if 1 ≤ p.1.length ∧ p.1.length ≤ 6 then
        some (natOfDigits p.1 * 10 ^ (6 - p.1.length), p.2)
      else Option.none
  | l => some (0, l)

/-- Parses the optional seconds, fraction and offset after HH:MM. -/
def parseTimeTail (hh mi : Nat) (y mo d : Nat) : List Char → Option PyDatetime
  | ':' :: r => do
      let p1 ← parseExactDigits 2 r
      if p1.1 ≤ 59 then do
        let p2 ← parseFrac p1.2
        let off ← parseOffset p2.2
        pure ⟨y, mo, d, hh, mi, p1.1, p2.1, off⟩
      else Option.none
  | l => do
      let off ← parseOffset l
      pure ⟨y, mo, d, hh, mi, 0, 0, off⟩

/-- Model of datetime.fromisoformat on ISO-8601 text of the shape
YYYY-MM-DD[THH:MM[:SS[.ffffff]]][+HH:MM], with basic range validation.
This covers the formats the pipeline feeds it; other accepted spellings
of the Python parser are not modelled and no claim depends on them. -/
def fromisoChars (l : List Char) : Option PyDatetime := do
  let py ← parseExactDigits 4 l
  let r1 ← expectChar '-' py.2
  let pmo ← parseExactDigits 2 r1
  let r2 ← expectChar '-' pmo.2
  let pd ← parseExactDigits 2 r2
  if 1 ≤ pmo.1 ∧ pmo.1 ≤ 12 ∧ 1 ≤ pd.1 ∧ pd.1 ≤ 31 then
    match pd.2 with
    | [] => pure ⟨py.1, pmo.1, pd.1, 0, 0, 0, 0, Option.none⟩
    | sep :: r3 =>
        if sep = 'T' ∨ sep = ' ' then do
          let phh ← parseExactDigits 2 r3
          let r4 ← expectChar ':' phh.2
          let pmi ← parseExactDigits 2 r4
          if phh.1 ≤ 23 ∧ pmi.1 ≤ 59 then
            parseTimeTail phh.1 pmi.1 py.1 pmo.1 pd.1 pmi.2
          else Option.none
        else Option.none
  else Option.none

/-- Embeds format_datetime of utilities.py lines 20-28: a falsy value gives
None; otherwise the text before the first dot is kept, which removes the
fractional seconds together with everything after them; the try block
absorbs the failure on a non-string value and yields None. -/
def format_datetime (value : PyVal) : PyVal :=
  if !value.truthy then PyVal.none
  else
    match value with
    | PyVal.str s => PyVal.str (String.mk (s.toList.takeWhile (fun c => c != '.')))
    | _ => PyVal.none

/-! ### utilities.py: primary-selection and donor flattening -/

/-- The generator condition of extract_primary_from_array line 34:
item.get("primary", False), used for its truthiness.  The sources only
apply it to JSON objects; on a non-object the default False is kept. -/
def primaryFlagged (it : PyVal) : Bool :=
  (it.getD ("primary") (PyVal.bool false)).truthy

/-- Embeds extract_primary_from_array of utilities.py lines 30-35.  The key
parameter mirrors the Python argument, which may be None (as in the address
call of flatten_donor_data): looking a None key up in a JSON object, whose
keys are all strings, always misses and gives None. -/
def extract_primary_from_array (array : PyVal) (key : Option String) : PyVal :=
  if !array.truthy then PyVal.none
  else
    match array with
    | PyVal.list items =>
        match items.find? primaryFlagged with
        | some primaryItem =>
            match key with
            | some k => primaryItem.get k
            | _ => PyVal.none
        | _ => PyVal.none
    | _ => PyVal.none

/-- Embeds flatten_address_object of utilities.py lines 37-53. -/
def flatten_address_object (address : PyVal) : PyRow :=
  if !address.truthy then
    [("address_line1", PyVal.none), ("address_line2", PyVal.none),
     ("address_city", PyVal.none), ("address_state", PyVal.none),
     ("address_postal_code", PyVal.none)]
  else
    [("address_line1", address.get ("street_line_1")),
     ("address_line2", address.get ("street_line_2")),
     ("address_city", address.get ("city")),
     ("address_state", address.get ("state")),
     ("address_postal_code", address.get ("zip"))]

/-- Embeds flatten_donor_data of utilities.py lines 55-73.  The address call
passes key None to extract_primary_from_array, exactly as line 62 does.
The merged dict is an append because the two explicit keys never occur in
the address part; the or-empty-dict fallback of line 62 is dead code since
flatten_address_object always returns a non-empty dict. -/
def flatten_donor_data (attributes : PyVal) : PyRow :=
  let address := attributes.getD ("address") (PyVal.list [])
  let email_addresses := attributes.getD ("email_addresses") (PyVal.list [])
  let phone_numbers := attributes.getD ("phone_numbers") (PyVal.list [])
  let flattened_address := flatten_address_object (extract_primary_from_array address Option.none)
  let primary_email := extract_primary_from_array email_addresses (some ("address"))
  let primary_phone := extract_primary_from_array phone_numbers (some ("number"))
  flattened_address ++ [("email_address", primary_email), ("phone_number", primary_phone)]

/-! ### utilities.py: schema-directed casting -/

/-- One field of a destination schema (bigquery.SchemaField in the sources):
its name and its declared type, the latter kept as a string exactly as the
sources compare it. -/
structure SchemaField where
  name : String
  fieldType : String
deriving DecidableEq

/-- Embeds the per-field body of cast_to_schema, utilities.py lines 93-106.
The int and float constructors there are not wrapped in try, so a parse
failure raises ValueError out of the function, modelled as an error. -/
def castValue (fieldType : String) (value : PyVal) : Except String PyVal :=
  if value.isNone then Except.ok PyVal.none
  else if fieldType = "STRING" then Except.ok (PyVal.str (pyStr value))
  else if fieldType = "INTEGER" then
    match pyInt value with
    | some n => Except.ok (PyVal.int n)
    | _ => Except.error ("ValueError: int")
  else if fieldType = "FLOAT" then
    match pyFloat value with
    | some q => Except.ok (PyVal.float q)
    | _ => Except.error ("ValueError: float")
  else if fieldType = "TIMESTAMP" then Except.ok (format_datetime value)
  else Except.ok value

/-- The loop of cast_to_schema over the schema fields, accumulating the
casted row by dict assignment. -/
def castLoop (row : PyRow) : List SchemaField → PyRow → Except String PyRow
  | [], acc => Except.ok acc
  | f :: rest, acc =>
      match castValue f.fieldType (rowGetD row f.name) with
      | Except.ok v => castLoop row rest (setKey acc f.name v)
      | Except.error e => Except.error e

/-- Embeds cast_to_schema of utilities.py lines 87-108: builds a fresh row
holding exactly the schema fields, reading each from the input row with a
None default. -/
def cast_to_schema (row : PyRow) (schema : List SchemaField) : Except String PyRow :=
  castLoop row schema []

/-! ### utilities.py: paginated fetch -/

/-- One step of the request/response sequence observed by the while loop of
fetch_data: either the transport raises (RequestException, including a
non-2xx status raised by raise_for_status), or a JSON page arrives carrying
a data array and the truthiness of its links.next field. -/
inductive PageResult where
  | fail
  | page (data : List PyVal) (hasNext : Bool)

/-- The post-fetch predicate of fetch_data line 186:
item["attributes"].get("payment_status") == "succeeded". -/
def isSucceeded (item : PyVal) : Bool :=
  match (item.get ("attributes")).get ("payment_status") with
  | PyVal.str s => s == "succeeded"
  | _ => false

/-- The page filter of fetch_data lines 185-186, applied to the donations
endpoint only. -/
def acceptItems (endpoint : String) (data : List PyVal) : List PyVal :=
  if endpoint = "pco-donations" then data.filter isSucceeded else data

/-- Embeds the while loop of fetch_data, utilities.py lines 176-196, over
the sequence of successive page results.  A transport failure is caught by
the except branch, which breaks out of the loop and keeps the pages already
accumulated, so the function is total and never propagates the failure; a
page without a next link ends the loop normally. -/
def fetch_data (endpoint : String) : List PageResult → List PyVal
  | [] => []
  | PageResult.fail :: _ => []
  | PageResult.page data hasNext :: rest =>
      acceptItems endpoint data ++ (if hasNext then fetch_data endpoint rest else [])

/-- The same pagination loop with no endpoint-specific filter, used to state
that non-donations endpoints keep every fetched item. -/
def rawFetch : List PageResult → List PyVal
  | [] => []
  | PageResult.fail :: _ => []
  | PageResult.page data hasNext :: rest =>
      data ++ (if hasNext then rawFetch rest else [])

/-! ### utilities.py: orchestration across clients and endpoints -/

/-- The endpoint table of utilities.py lines 11-17 (the dict keys, in their
iteration order, which is the insertion order). -/
def ENDPOINTS : List String :=
  ["pco-donations", "pco-designations", "pco-funds", "pco-campuses", "pco-donors"]

/-- Outcome of the body fetch_data plus load_to_bigquery for one
(client, endpoint) pair: normal completion, or a raised exception. -/
inductive WorkResult where
  | ok
  | err (msg : String)

/-- The try/except of process_client lines 213-217: an exception from the
pair body is caught and logged, and the loop moves on, so each pair reports
its own outcome. -/
def runPair (work : String → String → WorkResult) (clientName endpointName : String) : Bool :=
  match work clientName endpointName with
  | WorkResult.ok => true
  | WorkResult.err _ => false

/-- Embeds the endpoint loop of process_client, utilities.py lines 198-217:
every endpoint of the client is attempted and paired with its outcome. -/
def process_client (work : String → String → WorkResult) (clientName : String) :
    List (String × Bool) :=
  ENDPOINTS.map (fun e => (e, runPair work clientName e))

/-- Embeds the client loop of process_all_clients, utilities.py lines
230-232: every configured client is processed in turn. -/
def process_all_clients (work : String → String → WorkResult) (clients : List String) :
    List (String × List (String × Bool)) :=
  clients.map (fun c => (c, process_client work c))

/-! ### utilities.py: the donor mutation inside load_to_bigquery -/

/-- Models dict.update on the attributes mapping: every pair of the update
list is assigned into the dict in order. -/
def dictUpdate (d : PyVal) (kvs : PyRow) : PyVal :=
  match d with
  | PyVal.dict fs => PyVal.dict (kvs.foldl (fun acc kv => setKey acc kv.1 kv.2) fs)
  | v => v

/-- Embeds the pco-donors branch of load_to_bigquery, utilities.py lines
128-134: attributes is a reference into the item, and
attributes.update(flatten_donor_data(attributes)) mutates the item in
place.  The per-item effect on the input item is returned. -/
def donorMutate (item : PyVal) : PyVal :=
  match item with
  | PyVal.dict fs =>
      match rowLookup fs ("attributes") with
      | some attrs =>
          PyVal.dict (setKey fs ("attributes") (dictUpdate attrs (flatten_donor_data attrs)))
      | _ => item
  | _ => item

/-- The observable state of the caller-supplied data list after the row
loop of load_to_bigquery, lines 127-145: for the pco-donors table each item
has its attributes updated in place; for every other table the loop reads
the items without modifying them. -/
def load_to_bigquery_items (table : String) (data : List PyVal) : List PyVal :=
  data.map (fun item => if table = "pco-donors" then donorMutate item else item)

/-! ### main-v2.py and utilities-v2.py: field extraction and coercion -/

/-- Embeds the field resolution of the v2 process_endpoint functions
(utilities-v2.py lines 32-37, main-v2.py lines 32-37): read the attribute,
and when it is missing or null and the field is a key of the relationships
object, fall back to the id of the linked data object, which stays None
when data is null.  The two variants phrase the relationships guard
differently but agree whenever relationships, when present, is a JSON
object, which is the JSON-API shape both consume. -/
def extractField (item : PyVal) (fieldName : String) : PyVal :=
  let value := (item.getD ("attributes") (PyVal.dict [])).get fieldName
  if value.isNone && item.hasKey ("relationships") && (item.get ("relationships")).hasKey fieldName then
    let relData := ((item.get ("relationships")).get fieldName).get ("data")
    if relData.truthy then relData.get ("id") else value
  else value

/-- Modelled from the spec: the resolution order of section 4.2, written
from its words — the attribute value if present and non-null; otherwise,
when the field name is a key of the relationships object, the id of the
linked data, null when data is null; otherwise null. -/
def extractFieldSpec (item : PyVal) (fieldName : String) : PyVal :=
  let a := (item.getD ("attributes") (PyVal.dict [])).get fieldName
  if !a.isNone then a
  else if (item.get ("relationships")).hasKey fieldName then
    let data := ((item.get ("relationships")).get fieldName).get ("data")
    if data.isNone then PyVal.none else data.get ("id")
  else PyVal.none

/-- Embeds the value-conversion block of utilities-v2.py lines 39-58: only
non-null values are converted; a failed float or int parse is absorbed to
0.0 or 0; timestamp text has every Z replaced by +00:00 and is parsed,
with None substituted on parse failure; strings stringify; a null value is
left untouched. -/
def coerceV2 (value : PyVal) (fieldType : String) : PyVal :=
  if !value.isNone then
    if fieldType = "FLOAT" then
      match pyFloat value with
      | some q => PyVal.float q
      | _ => PyVal.float 0
    else if fieldType = "INTEGER" then
      match pyInt value with
      | some n => PyVal.int n
      | _ => PyVal.int 0
    else if fieldType = "TIMESTAMP" then
      match fromisoChars (replaceZ (pyStr value).toList) with
      | some d => PyVal.datetime d
      | _ => PyVal.none
    else if fieldType = "STRING" then PyVal.str (pyStr value)
    else value
  else value

/-- Embeds the record construction of utilities-v2.py lines 26-61: the id
field is set first, from str(item["id"]), which raises KeyError when the
item has no id key; every other schema field is extracted and coerced. -/
def processItemV2 (idField : String) (schema : List SchemaField) (item : PyVal) :
    Except String PyRow :=
  match item with
  | PyVal.dict fs =>
      match rowLookup fs ("id") with
      | some idv =>
          Except.ok ((schema.filter (fun f => f.name != idField)).foldl
            (fun r f => setKey r f.name (coerceV2 (extractField item f.name) f.fieldType))
            [(idField, PyVal.str (pyStr idv))])
      | _ => Except.error ("KeyError: id")
  | _ => Except.error ("TypeError: item")

/-- The item loop shared by the two v2 process_endpoint variants: falsy
items are skipped, the record is built (which may raise), and the record is
appended to new_records only when the keep condition holds; an exception
aborts the whole pass and discards the accumulated records. -/
def processLoop (build : PyVal → Except String PyRow) (keep : PyRow → Bool) :
    List PyVal → Except String (List PyRow)
  | [] => Except.ok []
  | item :: rest =>
      if item.truthy then
        match build item with
        | Except.error e => Except.error e
        | Except.ok record =>
            match processLoop build keep rest with
            | Except.error e => Except.error e
            | Except.ok recs => Except.ok (if keep record then record :: recs else recs)
      else processLoop build keep rest

/-- Embeds the new_records computation of process_endpoint in
utilities-v2.py lines 21-65: a record is kept exactly when
str(record[id_field]) is not in the existing-id set; no other write path
exists, so kept records are the complete store effect of the pass. -/
def processEndpointV2 (idField : String) (schema : List SchemaField)
    (existing : List String) (items : List PyVal) : Except String (List PyRow) :=
  processLoop (processItemV2 idField schema)
    (fun record => !(existing.contains (pyStr (rowGetD record idField)))) items

/-- Embeds the null-defaulting of main-v2.py lines 39-47: a null extracted
value becomes the empty string for STRING fields and the integer 0 for
FLOAT and INTEGER fields; main-v2 performs no conversion on non-null
values. -/
def processFieldMainV2 (item : PyVal) (f : SchemaField) : PyVal :=
  let value := extractField item f.name
  if value.isNone then
    if f.fieldType = "STRING" then PyVal.str ""
    else if f.fieldType = "FLOAT" || f.fieldType = "INTEGER" then PyVal.int 0
    else PyVal.none
  else value

/-- Embeds the record construction of main-v2.py lines 25-47: the id value
is assigned directly, without a str cast, and raises KeyError when the item
has no id key. -/
def processItemMainV2 (idField : String) (schema : List SchemaField) (item : PyVal) :
    Except String PyRow :=
  match item with
  | PyVal.dict fs =>
      match rowLookup fs ("id") with
      | some idv =>
          Except.ok ((schema.filter (fun f => f.name != idField)).foldl
            (fun r f => setKey r f.name (processFieldMainV2 item f))
            [(idField, idv)])
      | _ => Except.error ("KeyError: id")
  | _ => Except.error ("TypeError: item")

/-- The Python membership test of a value in a set of strings, as in
main-v2.py line 49: only an equal string is a member; a null or numeric id
is never in the set. -/
def pyValInStrSet (v : PyVal) (ss : List String) : Bool :=
  match v with
  | PyVal.str s => ss.contains s
  | _ => false

/-- Embeds the new_records computation of process_endpoint in main-v2.py
lines 20-54: a record is kept exactly when record[id_field] is not in the
existing-id set, and only kept records are ever written. -/
def processEndpointMainV2 (idField : String) (schema : List SchemaField)
    (existing : List String) (items : List PyVal) : Except String (List PyRow) :=
  processLoop (processItemMainV2 idField schema)
    (fun record => !(pyValInStrSet (rowGetD record idField) existing)) items

/-! ### Helper lemmas about the dict model -/

theorem PyVal.isNone_iff (v : PyVal) : v.isNone = true ↔ v = PyVal.none := by
  cases v <;> simp [PyVal.isNone]

theorem PyVal.get_of_hasKey_eq_false (v : PyVal) (k : String)
    (h : v.hasKey k = false) : v.get k = PyVal.none := by
  cases v <;> simp [PyVal.get, PyVal.hasKey] at h ⊢
  rename_i fs
  cases hl : rowLookup fs k with
  | none => simp
  | some w => rw [hl] at h; simp at h

theorem PyVal.get_of_truthy_eq_false (v : PyVal) (k : String)
    (h : v.truthy = false) : v.get k = PyVal.none := by
  cases v <;> simp [PyVal.get, PyVal.truthy] at h ⊢
  rename_i fs
  rcases fs with _ | p
  · simp [rowLookup]
  · simp [List.isEmpty] at h

theorem rowLookup_setKey_self (r : PyRow) (k : String) (v : PyVal) :
    rowLookup (setKey r k v) k = some v := by
  induction r with
  | nil => simp [setKey, rowLookup]
  | cons p rest ih =>
    by_cases hp : p.1 = k
    · simp [setKey, hp, rowLookup]
    · simp [setKey, hp, rowLookup, ih]

theorem rowLookup_setKey_ne (r : PyRow) (k k2 : String) (v : PyVal)
    (h : k ≠ k2) : rowLookup (setKey r k v) k2 = rowLookup r k2 := by
  induction r with
  | nil => simp [setKey, rowLookup, h]
  | cons p rest ih =>
    by_cases hp : p.1 = k
    · simp [setKey, hp, rowLookup, h]
    · simp [setKey, hp, rowLookup, ih]

theorem keysOf_nil : keysOf [] = [] := rfl

theorem keysOf_cons (p : String × PyVal) (r : PyRow) :
    keysOf (p :: r) = p.1 :: keysOf r := rfl

theorem mem_keysOf_setKey (r : PyRow) (k k2 : String) (v : PyVal) :
    k2 ∈ keysOf (setKey r k v) ↔ k2 = k ∨ k2 ∈ keysOf r := by
  induction r with
  | nil => simp [setKey, keysOf]
  | cons p rest ih =>
    by_cases hp : p.1 = k
    · subst hp
      rw [show setKey (p :: rest) p.1 v = (p.1, v) :: rest from by simp [setKey]]
      simp only [keysOf_cons, List.mem_cons]
      tauto
    · rw [show setKey (p :: rest) k v = p :: setKey rest k v from by simp [setKey, hp]]
      simp only [keysOf_cons, List.mem_cons, ih]
      tauto

theorem rowLookup_isSome_setKey (r : PyRow) (k k2 : String) (v : PyVal)
    (h : (rowLookup r k2).isSome = true) :
    (rowLookup (setKey r k v) k2).isSome = true := by
  by_cases hk : k = k2
  · subst hk; rw [rowLookup_setKey_self]; rfl
  · rw [rowLookup_setKey_ne r k k2 v hk]; exact h

theorem keysOf_mem_of_pair_mem (r : PyRow) (kv : String × PyVal)
    (h : kv ∈ r) : kv.1 ∈ keysOf r := List.mem_map_of_mem Prod.fst h

/-! ### The extraction code matches the resolution order of the spec -/

theorem extractField_eq_spec (item : PyVal) (fieldName : String) :
    extractField item fieldName = extractFieldSpec item fieldName := by
  simp only [extractField, extractFieldSpec]
  generalize (item.getD ("attributes") (PyVal.dict [])).get fieldName = a
  by_cases hA : a.isNone = true
  · rw [(PyVal.isNone_iff a).mp hA]
    by_cases h1 : item.hasKey ("relationships") = true
    · by_cases h2 : (item.get ("relationships")).hasKey fieldName = true
      · simp only [PyVal.isNone, h1, h2, Bool.and_true, Bool.true_and, if_true]
        generalize ((item.get ("relationships")).get fieldName).get ("data") = d
        cases d <;> simp [PyVal.truthy, PyVal.isNone, PyVal.get]
        rename_i fs
        rcases fs with _ | ⟨q, qs⟩ <;> simp [rowLookup]
      · simp [h1, h2, PyVal.isNone]
    · have hrel := PyVal.get_of_hasKey_eq_false item ("relationships") (by simpa using h1)
      simp [h1, hrel, PyVal.hasKey, PyVal.isNone]
  · simp [hA]

/-! ### Invariants of the item loop and of the casting loop -/

theorem processLoop_keep (build : PyVal → Except String PyRow) (keep : PyRow → Bool)
    (items : List PyVal) (recs : List PyRow)
    (h : processLoop build keep items = Except.ok recs) :
    (∀ r ∈ recs, keep r = true)
  ∧ (∀ item ∈ items, item.truthy = true →
      ∀ r, build item = Except.ok r → keep r = true → r ∈ recs) := by
  induction items generalizing recs with
  | nil =>
    simp only [processLoop, Except.ok.injEq] at h
    subst h
    simp
  | cons item rest ih =>
    rw [processLoop] at h
    by_cases ht : item.truthy = true
    · rw [if_pos ht] at h
      cases hb : build item with
      | error e => rw [hb] at h; cases h
      | ok record =>
        rw [hb] at h
        cases hrest : processLoop build keep rest with
        | error e => rw [hrest] at h; cases h
        | ok recs0 =>
          rw [hrest] at h
          dsimp only at h
          obtain ⟨ihKeep, ihMem⟩ := ih recs0 hrest
          by_cases hk : keep record = true
          · rw [if_pos hk, Except.ok.injEq] at h
            subst h
            refine ⟨?_, ?_⟩
            · intro r hr
              rcases List.mem_cons.mp hr with rfl | hr2
              · exact hk
              · exact ihKeep r hr2
            · intro it hit htr r hbr hkr
              rcases List.mem_cons.mp hit with rfl | hit2
              · rw [hbr] at hb
                cases hb
                exact List.mem_cons_self _ _
              · exact List.mem_cons_of_mem _ (ihMem it hit2 htr r hbr hkr)
          · rw [if_neg hk, Except.ok.injEq] at h
            subst h
            refine ⟨ihKeep, ?_⟩
            intro it hit htr r hbr hkr
            rcases List.mem_cons.mp hit with rfl | hit2
            · rw [hbr] at hb
              cases hb
              exact absurd hkr hk
            · exact ihMem it hit2 htr r hbr hkr
    · rw [if_neg ht] at h
      obtain ⟨ihKeep, ihMem⟩ := ih recs h
      refine ⟨ihKeep, ?_⟩
      intro it hit htr r hbr hkr
      rcases List.mem_cons.mp hit with rfl | hit2
      · exact absurd htr ht
      · exact ihMem it hit2 htr r hbr hkr

theorem castLoop_ok_shape (row : PyRow) (schema : List SchemaField) :
    ∀ acc out, castLoop row schema acc = Except.ok out →
      (∀ f ∈ schema, (rowLookup out f.name).isSome = true)
    ∧ (∀ k2, (rowLookup acc k2).isSome = true → (rowLookup out k2).isSome = true)
    ∧ (∀ k2, k2 ∈ keysOf out → k2 ∈ keysOf acc ∨ ∃ f ∈ schema, f.name = k2) := by
  induction schema with
  | nil =>
    intro acc out h
    simp only [castLoop, Except.ok.injEq] at h
    subst h
    exact ⟨by simp, fun k2 hk => hk, fun k2 hk => Or.inl hk⟩
  | cons f rest ih =>
    intro acc out h
    rw [castLoop] at h
    cases hc : castValue f.fieldType (rowGetD row f.name) with
    | error e => rw [hc] at h; cases h
    | ok v =>
      rw [hc] at h
      obtain ⟨h1, h2, h3⟩ := ih (setKey acc f.name v) out h
      refine ⟨?_, ?_, ?_⟩
      · intro f2 hf2
        rcases List.mem_cons.mp hf2 with rfl | hf2r
        · apply h2
          rw [rowLookup_setKey_self]
          rfl
        · exact h1 f2 hf2r
      · intro k2 hk2
        exact h2 k2 (rowLookup_isSome_setKey acc f.name k2 v hk2)
      · intro k2 hk2
        rcases h3 k2 hk2 with hin | ⟨f2, hf2, he⟩
        · rcases (mem_keysOf_setKey acc f.name k2 v).mp hin with rfl | hacc
          · exact Or.inr ⟨f, List.mem_cons_self _ _, rfl⟩
          · exact Or.inl hacc
        · exact Or.inr ⟨f2, List.mem_cons_of_mem _ hf2, he⟩

/-! ### Truncation at the first dot -/

theorem takeWhile_ne_dot (pre post : List Char) (hpre : '.' ∉ pre) :
    (pre ++ '.' :: post).takeWhile (fun c => c != '.') = pre := by
  induction pre with
  | nil => simp [List.takeWhile]
  | cons a t ih =>
    have ha : a ≠ '.' := fun he => hpre (he ▸ List.mem_cons_self a t)
    have ht : '.' ∉ t := fun hm => hpre (List.mem_cons_of_mem a hm)
    simp only [List.cons_append, List.takeWhile_cons]
    simp [ha, ih ht]

/-! ### Characterizations of the paginated fetch -/

theorem fetch_data_donations_eq_filter (pages : List PageResult) :
    fetch_data ("pco-donations") pages = (rawFetch pages).filter isSucceeded := by
  induction pages with
  | nil => rfl
  | cons p rest ih =>
    cases p with
    | fail => rfl
    | page data hasNext =>
      rw [fetch_data, rawFetch]
      simp only [acceptItems, if_pos rfl, List.filter_append]
      cases hasNext <;> simp [ih]

theorem fetch_data_eq_raw (endpoint : String) (hne : endpoint ≠ "pco-donations")
    (pages : List PageResult) : fetch_data endpoint pages = rawFetch pages := by
  induction pages with
  | nil => rfl
  | cons p rest ih =>
    cases p with
    | fail => rfl
    | page data hasNext =>
      rw [fetch_data, rawFetch]
      simp only [acceptItems, if_neg hne]
      cases hasNext <;> simp [ih]

/-! ### Keys added by a dict update -/

theorem foldl_setKey_lookup_isSome (kvs : PyRow) (fs : PyRow) (k : String)
    (h : k ∈ keysOf kvs ∨ (rowLookup fs k).isSome = true) :
    (rowLookup (kvs.foldl (fun acc kv => setKey acc kv.1 kv.2) fs) k).isSome = true := by
  induction kvs generalizing fs with
  | nil =>
    rcases h with hmem | hsome
    · simp [keysOf] at hmem
    · simpa using hsome
  | cons kv rest ih =>
    simp only [List.foldl_cons]
    apply ih
    rcases h with hmem | hsome
    · rcases List.mem_cons.mp ((keysOf_cons kv rest) ▸ hmem) with rfl | hr
      · right
        rw [rowLookup_setKey_self]
        rfl
      · exact Or.inl hr
    · exact Or.inr (rowLookup_isSome_setKey fs kv.1 k kv.2 hsome)

/-- The synthetic flat keys written by flatten_donor_data, in order. -/
def SYNTH_KEYS : List String :=
  ["address_line1", "address_line2", "address_city", "address_state",
   "address_postal_code", "email_address", "phone_number"]

theorem keysOf_append (a b : PyRow) : keysOf (a ++ b) = keysOf a ++ keysOf b := by
  simp [keysOf]

theorem flatten_address_object_keys (address : PyVal) :
    keysOf (flatten_address_object address)
      = ["address_line1", "address_line2", "address_city", "address_state",
         "address_postal_code"] := by
  unfold flatten_address_object keysOf
  split <;> rfl

theorem flatten_donor_data_keys (attributes : PyVal) :
    keysOf (flatten_donor_data attributes) = SYNTH_KEYS := by
  simp only [flatten_donor_data, keysOf_append, flatten_address_object_keys]
  rfl

/-! ### Claim C5 -/

/-- The example item of the spec: attributes.fund_id is null and
relationships.fund_id.data.id is F9. -/
def c5item : PyVal :=
  PyVal.dict [("id", PyVal.str ("D1")),
    ("attributes", PyVal.dict [("fund_id", PyVal.none)]),
    ("relationships",
      PyVal.dict [("fund_id", PyVal.dict [("data", PyVal.dict [("id", PyVal.str ("F9"))])])])]

/-- The second example item of the spec: relationships.fund_id.data is null. -/
def c5itemNullData : PyVal :=
  PyVal.dict [("id", PyVal.str ("D2")),
    ("attributes", PyVal.dict [("fund_id", PyVal.none)]),
    ("relationships", PyVal.dict [("fund_id", PyVal.dict [("data", PyVal.none)])])]

/-- Claim C5: field extraction resolves, first match winning, the attribute
value when present and non-null; otherwise, when the field name is a key of
the relationships object, the id of relationships[fieldName].data, null
when data is null; otherwise null.  The code equals the resolution order
written from the spec, and the two fund_id examples evaluate as stated. -/
theorem c5_extraction_order :
    (∀ item fieldName, extractField item fieldName = extractFieldSpec item fieldName)
  ∧ extractField c5item ("fund_id") = PyVal.str ("F9")
  ∧ extractField c5itemNullData ("fund_id") = PyVal.none :=
  ⟨extractField_eq_spec, rfl, rfl⟩

/-! ### Claim C2 -/

/-- Claim C2: the paginated fetch returns the concatenation, in page order,
of the accepted items of every page fetched before termination; the loop
ends exactly at the first page with no next link or at the first transport
failure, and a failure returns the items accumulated from the earlier pages
as a partial result — the except branch of the source absorbs the failure,
which is why the model is a total function that never propagates it.  Pages
beyond the terminating one (junk) are never requested. -/
theorem c2_pagination (endpoint : String) (pre : List (List PyVal))
    (lastPage : List PyVal) (junk : List PageResult) :
    fetch_data endpoint
        (pre.map (fun d => PageResult.page d true) ++ PageResult.page lastPage false :: junk)
      = (pre.map (acceptItems endpoint)).flatten ++ acceptItems endpoint lastPage
  ∧ fetch_data endpoint
        (pre.map (fun d => PageResult.page d true) ++ PageResult.fail :: junk)
      = (pre.map (acceptItems endpoint)).flatten := by
  induction pre with
  | nil => simp [fetch_data]
  | cons d rest ih =>
    refine ⟨?_, ?_⟩ <;>
      simp [fetch_data, ih.1, ih.2, List.append_assoc]

/-! ### Claim C7 -/

/-- Claim C7: for the donations endpoint every item whose payment_status
differs from succeeded is dropped — the result is exactly the filter of the
unfiltered pagination, whatever pages the server returned under whatever
date filters — and items of every other endpoint are never filtered by
payment status. -/
theorem c7_donations_filter (pages : List PageResult) :
    fetch_data ("pco-donations") pages = (rawFetch pages).filter isSucceeded
  ∧ (∀ item ∈ fetch_data ("pco-donations") pages, isSucceeded item = true)
  ∧ (∀ endpoint, endpoint ≠ "pco-donations" → fetch_data endpoint pages = rawFetch pages) := by
  refine ⟨fetch_data_donations_eq_filter pages, ?_, ?_⟩
  · intro item hmem
    rw [fetch_data_donations_eq_filter] at hmem
    exact (List.mem_filter.mp hmem).2
  · intro endpoint hne
    exact fetch_data_eq_raw endpoint hne pages

/-- A succeeded donation item. -/
def c7succ : PyVal :=
  PyVal.dict [("id", PyVal.str ("t1")),
    ("attributes", PyVal.dict [("payment_status", PyVal.str ("succeeded"))])]

/-- A pending donation item, which the donations filter must drop. -/
def c7pending : PyVal :=
  PyVal.dict [("id", PyVal.str ("t2")),
    ("attributes", PyVal.dict [("payment_status", PyVal.str ("pending"))])]

/-- A single-page response carrying one succeeded and one pending item. -/
def c7pages : List PageResult := [PageResult.page [c7succ, c7pending] false]

/-- Witness for C7: on a concrete page the funds endpoint keeps everything
while the donations endpoint keeps exactly the succeeded item. -/
theorem c7_witness :
    fetch_data ("pco-funds") c7pages = rawFetch c7pages
  ∧ fetch_data ("pco-donations") c7pages = [c7succ] :=
  ⟨(c7_donations_filter c7pages).2.2 ("pco-funds") (by decide), rfl⟩

/-! ### Claim C8 -/

/-- Claim C8: over the cartesian product of configured clients and
endpoints, every pair is processed and reports its own outcome, whatever
failures other pairs hit: the per-endpoint try/except of process_client
maps a raised exception to a logged failure outcome and the loops go on, so
no pair can prevent a remaining pair from running. -/
theorem map_fst_map_pair {α β : Type} (l : List α) (g : α → β) :
    (l.map (fun a => (a, g a))).map Prod.fst = l := by
  induction l with
  | nil => rfl
  | cons a t ih => simp [ih]

theorem c8_bulkhead (work : String → String → WorkResult) (clients : List String) :
    ((process_all_clients work clients).map Prod.fst = clients)
  ∧ (∀ p ∈ process_all_clients work clients,
        p.2.map Prod.fst = ENDPOINTS
      ∧ ∀ q ∈ p.2, q.2 = runPair work p.1 q.1) := by
  refine ⟨?_, ?_⟩
  · exact map_fst_map_pair clients (process_client work)
  · intro p hp
    simp only [process_all_clients, List.mem_map] at hp
    obtain ⟨c, hc, rfl⟩ := hp
    refine ⟨?_, ?_⟩
    · exact map_fst_map_pair ENDPOINTS (runPair work c)
    · intro q hq
      simp only [process_client, List.mem_map] at hq
      obtain ⟨e, he, rfl⟩ := hq
      rfl

/-! ### Claim C1 -/

/-- The endpoint schema used in the pass examples. -/
def c1schema : List SchemaField := [⟨"id", "STRING"⟩, ⟨"name", "STRING"⟩]

/-- A fetched item whose id 1 is already in the existing-id set. -/
def c1item1 : PyVal :=
  PyVal.dict [("id", PyVal.str ("1")), ("attributes", PyVal.dict [("name", PyVal.str ("Alice"))])]

/-- A fetched item whose id 3 is not in the existing-id set. -/
def c1item3 : PyVal :=
  PyVal.dict [("id", PyVal.str ("3")), ("attributes", PyVal.dict [("name", PyVal.str ("Bob"))])]

/-- The record the pass builds for the item with id 3. -/
def c1rec3 : PyRow := [("id", PyVal.str ("3")), ("name", PyVal.str ("Bob"))]

/-- Claim C1 as stated is false: with existing ids 1 and 2 and fetched ids
1 and 3, the pass writes only the record of id 3; the item with id 1 is
written under no classification at all, because the code has no update
write — membership in the existing set merely suppresses the insert. -/
theorem c1_counterexample :
    processEndpointMainV2 ("id") c1schema ["1", "2"] [c1item1, c1item3]
      = Except.ok [c1rec3]
  ∧ [c1rec3].map (fun r => pyStr (rowGetD r ("id"))) = ["3"]
  ∧ "1" ∉ [c1rec3].map (fun r => pyStr (rowGetD r ("id"))) :=
  ⟨rfl, rfl, by decide⟩

/-- Claim C1 (amended): each fetched item whose id is not in the
existing-id set is inserted, and each item whose id is in the set is
skipped entirely — there is no update write — so re-running a pass after an
id has entered the existing-id set never inserts a duplicate row for that
id: no written record ever carries an id that is in the set. -/
theorem c1_insert_only (idField : String) (schema : List SchemaField)
    (existing : List String) (items : List PyVal) (recs : List PyRow)
    (h : processEndpointMainV2 idField schema existing items = Except.ok recs) :
    (∀ r ∈ recs, pyValInStrSet (rowGetD r idField) existing = false)
  ∧ (∀ item ∈ items, item.truthy = true →
      ∀ r, processItemMainV2 idField schema item = Except.ok r →
        pyValInStrSet (rowGetD r idField) existing = false → r ∈ recs) := by
  unfold processEndpointMainV2 at h
  obtain ⟨h1, h2⟩ := processLoop_keep _ _ _ _ h
  refine ⟨?_, ?_⟩
  · intro r hr
    simpa using h1 r hr
  · intro item hitem ht r hb hfalse
    exact h2 item hitem ht r hb (by simp [hfalse])

/-- Witness for the amended C1 at a concrete pass. -/
theorem c1_insert_only_witness :
    (∀ r ∈ [c1rec3], pyValInStrSet (rowGetD r ("id")) ["1", "2"] = false)
  ∧ (∀ item ∈ [c1item1, c1item3], item.truthy = true →
      ∀ r, processItemMainV2 ("id") c1schema item = Except.ok r →
        pyValInStrSet (rowGetD r ("id")) ["1", "2"] = false → r ∈ [c1rec3]) :=
  c1_insert_only ("id") c1schema ["1", "2"] [c1item1, c1item3] [c1rec3] rfl

/-! ### Claim C3 -/

/-- Claim C3 as stated is false: the v2 coercion converts only non-null
values, so a null INTEGER input is returned as null, not defaulted to 0. -/
theorem c3_counterexample :
    coerceV2 PyVal.none ("INTEGER") = PyVal.none
  ∧ coerceV2 PyVal.none ("INTEGER") ≠ PyVal.int 0 :=
  ⟨rfl, fun h => PyVal.noConfusion h⟩

/-- Claim C3 (amended): for a non-null raw value, INTEGER and FLOAT
coercion attempts the numeric parse, absorbs a parse failure into the
default 0 or 0.0 without raising, and keeps a successful parse — in
particular coercing the text abc at FLOAT gives 0.0 — while a null input is
passed through unchanged as null rather than defaulted to 0. -/
theorem c3_numeric_defaults (v : PyVal) (hv : v.isNone = false) :
    (pyFloat v = Option.none → coerceV2 v ("FLOAT") = PyVal.float 0)
  ∧ (∀ q, pyFloat v = some q → coerceV2 v ("FLOAT") = PyVal.float q)
  ∧ (pyInt v = Option.none → coerceV2 v ("INTEGER") = PyVal.int 0)
  ∧ (∀ n, pyInt v = some n → coerceV2 v ("INTEGER") = PyVal.int n)
  ∧ coerceV2 (PyVal.str ("abc")) ("FLOAT") = PyVal.float 0
  ∧ (∀ t, coerceV2 PyVal.none t = PyVal.none) := by
  refine ⟨?_, ?_, ?_, ?_, rfl, fun t => rfl⟩
  · intro hpf
    simp [coerceV2, hv, hpf]
  · intro q hpf
    simp [coerceV2, hv, hpf]
  · intro hpi
    simp [coerceV2, hv, hpi]
  · intro n hpi
    simp [coerceV2, hv, hpi]

/-- Witness for the amended C3 at the text abc. -/
theorem c3_numeric_defaults_witness :
    (PyVal.str ("abc")).isNone = false
  ∧ coerceV2 (PyVal.str ("abc")) ("FLOAT") = PyVal.float 0
  ∧ coerceV2 (PyVal.str ("abc")) ("INTEGER") = PyVal.int 0 :=
  ⟨rfl, (c3_numeric_defaults (PyVal.str ("abc")) rfl).2.2.2.2.1,
   (c3_numeric_defaults (PyVal.str ("abc")) rfl).2.2.1 (by decide)⟩

/-! ### Claim C4 -/

/-- Claim C4 as stated is false at its own example input: the v2 timestamp
coercion normalizes the trailing Z to +00:00 and parses, but it keeps the
fractional seconds — the microsecond field of the result is 123000, not 0,
so fractional seconds are not dropped while the offset is preserved. -/
theorem c4_counterexample :
    coerceV2 (PyVal.str ("2024-01-05T10:00:00.123Z")) ("TIMESTAMP")
      = PyVal.datetime ⟨2024, 1, 5, 10, 0, 0, 123000, some 0⟩
  ∧ (123000 : Nat) ≠ 0 :=
  ⟨rfl, by decide⟩

/-- Claim C4 (amended): the v2 TIMESTAMP coercion normalizes a trailing Z
to the explicit UTC offset +00:00 before parsing and substitutes null on
parse failure, but preserves fractional seconds; the dropping of fractional
seconds happens only in format_datetime of utilities.py, which truncates
the text at the first dot — discarding the UTC designator that follows the
fraction — and performs no parse at all. -/
theorem c4_timestamp_coercion (v : PyVal) (hv : v.isNone = false)
    (pre post : List Char) (hpre : '.' ∉ pre)
    (ht : (PyVal.str (String.mk (pre ++ '.' :: post))).truthy = true) :
    (fromisoChars (replaceZ (pyStr v).toList) = Option.none →
        coerceV2 v ("TIMESTAMP") = PyVal.none)
  ∧ (∀ d, fromisoChars (replaceZ (pyStr v).toList) = some d →
        coerceV2 v ("TIMESTAMP") = PyVal.datetime d)
  ∧ format_datetime (PyVal.str (String.mk (pre ++ '.' :: post)))
      = PyVal.str (String.mk pre) := by
  refine ⟨?_, ?_, ?_⟩
  · intro hparse
    simp only [String.toList] at hparse
    simp [coerceV2, hv, hparse]
  · intro d hparse
    simp only [String.toList] at hparse
    simp [coerceV2, hv, hparse]
  · simp only [format_datetime, ht, Bool.not_true, Bool.false_eq_true, if_false]
    show PyVal.str (String.mk ((pre ++ '.' :: post).takeWhile (fun c => c != '.')))
      = PyVal.str (String.mk pre)
    rw [takeWhile_ne_dot pre post hpre]

/-- Witness for the amended C4: abc fails the parse and coerces to null,
and a concrete dotted text is truncated at the dot. -/
theorem c4_timestamp_coercion_witness :
    fromisoChars (replaceZ (pyStr (PyVal.str ("abc"))).toList) = Option.none
  ∧ coerceV2 (PyVal.str ("abc")) ("TIMESTAMP") = PyVal.none
  ∧ format_datetime (PyVal.str (String.mk (['2'] ++ '.' :: ['5'])))
      = PyVal.str (String.mk ['2']) :=
  ⟨by decide,
   (c4_timestamp_coercion (PyVal.str ("abc")) rfl ['2'] ['5'] (by decide) (by decide)).1 (by decide),
   (c4_timestamp_coercion (PyVal.str ("abc")) rfl ['2'] ['5'] (by decide) (by decide)).2.2⟩

/-! ### Claim C9 -/

/-- The endpoint schema of the null-id counterexample. -/
def c9schema : List SchemaField := [⟨"id", "STRING"⟩, ⟨"name", "STRING"⟩]

/-- An item whose id key is present but explicitly null. -/
def c9nullIdItem : PyVal :=
  PyVal.dict [("id", PyVal.none), ("attributes", PyVal.dict [("name", PyVal.str ("X"))])]

/-- The record the pass emits for the null-id item. -/
def c9nullIdRec : PyRow := [("id", PyVal.none), ("name", PyVal.str ("X"))]

/-- Claim C9 as stated is false: an item carrying an explicit null id is
neither excluded from the output rows nor does it fail the pass; the
main-v2 pass assigns the id value directly, classifies null as not in the
existing-id set, and emits a row whose id field is null. -/
theorem c9_counterexample :
    processEndpointMainV2 ("id") c9schema [] [c9nullIdItem] = Except.ok [c9nullIdRec]
  ∧ rowLookup c9nullIdRec ("id") = some PyVal.none :=
  ⟨rfl, rfl⟩

/-- Claim C9 (amended): every row built by cast_to_schema contains exactly
the field names of the declared schema — each present, possibly with a null
or default value, and no other keys — and an item with no id key at all
raises KeyError, failing the pass; but an item whose id is present and null
is not excluded: it yields a row with a null id (see the counterexample). -/
theorem c9_row_shape (row : PyRow) (schema : List SchemaField) (out : PyRow)
    (h : cast_to_schema row schema = Except.ok out)
    (idField : String) (schema2 : List SchemaField) (fs : PyRow)
    (hid : rowLookup fs ("id") = Option.none) :
    ((∀ f ∈ schema, (rowLookup out f.name).isSome = true)
      ∧ (∀ kv ∈ out, ∃ f ∈ schema, f.name = kv.1))
  ∧ processItemV2 idField schema2 (PyVal.dict fs) = Except.error ("KeyError: id") := by
  unfold cast_to_schema at h
  refine ⟨⟨?_, ?_⟩, ?_⟩
  · exact (castLoop_ok_shape row schema [] out h).1
  · intro kv hkv
    rcases (castLoop_ok_shape row schema [] out h).2.2 kv.1
        (keysOf_mem_of_pair_mem out kv hkv) with hin | hex
    · simp [keysOf] at hin
    · exact hex
  · simp [processItemV2, hid]

/-- The input row of the C9 witness: it carries an extra key the schema
does not mention. -/
def c9wrow : PyRow := [("id", PyVal.str ("7")), ("extra", PyVal.int 5)]

/-- The schema of the C9 witness. -/
def c9wschema : List SchemaField := [⟨"id", "STRING"⟩, ⟨"amount", "FLOAT"⟩]

/-- The casted row of the C9 witness: exactly the schema fields. -/
def c9wout : PyRow := [("id", PyVal.str ("7")), ("amount", PyVal.none)]

/-- An item with no id key at all. -/
def c9wfs : PyRow := [("name", PyVal.str ("Q"))]

/-- Witness for the amended C9 at concrete inputs. -/
theorem c9_row_shape_witness :
    ((∀ f ∈ c9wschema, (rowLookup c9wout f.name).isSome = true)
      ∧ (∀ kv ∈ c9wout, ∃ f ∈ c9wschema, f.name = kv.1))
  ∧ processItemV2 ("donation_id") c9wschema (PyVal.dict c9wfs)
      = Except.error ("KeyError: id") :=
  c9_row_shape c9wrow c9wschema c9wout rfl ("donation_id") c9wschema c9wfs rfl

/-! ### Claim C6 -/

/-- Donor attributes carrying a primary-flagged address with a street line. -/
def c6addrAttrs : PyVal :=
  PyVal.dict [("address",
    PyVal.list [PyVal.dict [("street_line_1", PyVal.str ("123 Main St")),
                            ("primary", PyVal.bool true)]])]

/-- Donor attributes with two emails, the second flagged primary. -/
def c6emailAttrs : PyVal :=
  PyVal.dict [("email_addresses",
    PyVal.list [PyVal.dict [("address", PyVal.str ("a@x.com")), ("primary", PyVal.bool false)],
                PyVal.dict [("address", PyVal.str ("b@x.com")), ("primary", PyVal.bool true)]])]

/-- An email array where no element is flagged primary. -/
def c6noPrimary : PyVal :=
  PyVal.list [PyVal.dict [("address", PyVal.str ("a@x.com")), ("primary", PyVal.bool false)]]

/-- Claim C6 (code bug): primary selection behaves as claimed for the email
and phone arrays — the primary-flagged element is selected, no flagged
element yields null with no first-element fallback, and a missing address
yields all-null flat fields — but for the address array the code can never
select the primary element: flatten_donor_data passes key None to
extract_primary_from_array, a None key misses every string key of the
selected element, so the flat address fields are null even when a
primary-flagged address with street_line_1 is present. -/
theorem c6_flatten_primary :
    (∀ a, extract_primary_from_array a Option.none = PyVal.none)
  ∧ rowLookup (flatten_donor_data c6addrAttrs) ("address_line1") = some PyVal.none
  ∧ rowLookup (flatten_donor_data c6emailAttrs) ("email_address") = some (PyVal.str ("b@x.com"))
  ∧ extract_primary_from_array c6noPrimary (some ("address")) = PyVal.none
  ∧ rowLookup (flatten_donor_data (PyVal.dict [])) ("address_line1") = some PyVal.none := by
  refine ⟨?_, rfl, rfl, rfl, rfl⟩
  intro a
  unfold extract_primary_from_array
  split
  · rfl
  · cases a <;> try rfl
    rename_i xs hcond
    dsimp only
    cases hx : xs.find? primaryFlagged
    · rfl
    · rfl

/-! ### Claim C10 -/

/-- Claim C10: loading rows for the pco-donors table mutates the input
items: the attributes mapping of each item is updated in place with the
synthetic flattened keys before row construction, so the items carry those
keys after the call, while for every other table the input items are left
unchanged. -/
theorem c10_donor_mutation (data : List PyVal) :
    load_to_bigquery_items ("pco-donors") data = data.map donorMutate
  ∧ (∀ table, table ≠ "pco-donors" → load_to_bigquery_items table data = data)
  ∧ (∀ fs attrs, rowLookup fs ("attributes") = some attrs →
        donorMutate (PyVal.dict fs)
          = PyVal.dict (setKey fs ("attributes")
              (dictUpdate attrs (flatten_donor_data attrs))))
  ∧ (∀ afs k, k ∈ SYNTH_KEYS →
        (dictUpdate (PyVal.dict afs) (flatten_donor_data (PyVal.dict afs))).hasKey k = true) := by
  refine ⟨?_, ?_, ?_, ?_⟩
  · simp [load_to_bigquery_items]
  · intro table hne
    simp [load_to_bigquery_items, hne]
  · intro fs attrs hattr
    simp [donorMutate, hattr]
  · intro afs k hk
    simp only [dictUpdate, PyVal.hasKey]
    apply foldl_setKey_lookup_isSome
    left
    rw [flatten_donor_data_keys]
    exact hk

/-- The field list of the C10 witness item. -/
def c10fs : PyRow :=
  [("id", PyVal.str ("p1")),
   ("attributes", PyVal.dict [("first_name", PyVal.str ("Ann"))])]

/-- The C10 witness item. -/
def c10item : PyVal := PyVal.dict c10fs

/-- Witness for C10 at a concrete item: the funds table leaves the item
unchanged, the donors mutation rewrites the attributes in place, and the
updated attributes carry the synthetic email key. -/
theorem c10_donor_mutation_witness :
    load_to_bigquery_items ("pco-funds") [c10item] = [c10item]
  ∧ donorMutate (PyVal.dict c10fs)
      = PyVal.dict (setKey c10fs ("attributes")
          (dictUpdate (PyVal.dict [("first_name", PyVal.str ("Ann"))])
            (flatten_donor_data (PyVal.dict [("first_name", PyVal.str ("Ann"))]))))
  ∧ (dictUpdate (PyVal.dict [("first_name", PyVal.str ("Ann"))])
      (flatten_donor_data (PyVal.dict [("first_name", PyVal.str ("Ann"))]))).hasKey
        ("email_address") = true :=
  ⟨(c10_donor_mutation [c10item]).2.1 ("pco-funds") (by decide),
   (c10_donor_mutation [c10item]).2.2.1 c10fs (PyVal.dict [("first_name", PyVal.str ("Ann"))]) rfl,
   (c10_donor_mutation [c10item]).2.2.2 [("first_name", PyVal.str ("Ann"))] ("email_address")
     (by decide)⟩
